import Mathlib

/-!
Shallow embedding of `xmouse_remote` (`src/__init__.py`), a thin Python
wrapper around the Xlib XTEST "fake input" primitive and the root-window
"query pointer" primitive.

Modelling choices:
* Python `int` coordinates become `Int`; button detail IDs become `Nat`.
* The `button_ids` dictionary becomes an association list `List (String × Nat)`
  with `dictGet` mirroring Python's `dict.get(key, default)`.
* A `Machine` bundles the object's fields (`XMouse_Remote`), the live server
  pointer location, the sequence of synthetic input events the server has
  received through `fake_input` (the trace a mock server would observe), and
  the sequence of `time.sleep` durations performed.
* The display server is modelled without external interference: a
  `MotionNotify` event moves the pointer exactly to the requested coordinates,
  and button events leave it in place (`serverApply`).
* `display.sync()` has no observable effect in this model; the `sync` flags are
  kept as parameters for fidelity.
* Python `time.sleep` amounts (floats such as `0.01`, only ever compared
  against `0`) are modelled as rationals.
* `drag_absolute` references the local variable `_target_id`, which is never
  assigned in that method's scope, so CPython raises
  `NameError: name '_target_id' is not defined` when the release line is
  reached; the embedding returns this as an explicit `PyError`.
-/

namespace XMouseRemote

/-- The `button_ids` dictionary: symbolic button names to X button detail IDs. -/
abbrev ButtonTable := List (String × Nat)

/-- Python's `d.get(key, default)` on a `ButtonTable`. -/
def dictGet (d : ButtonTable) (key : String) (dflt : Nat) : Nat :=
  match d.find? (fun p => p.1 == key) with
  | some p => p.2
  | none => dflt

/-- `delays` dictionaries such as `{0: 0.01, 1: 0.01}`: int keys to seconds. -/
abbrev Delays := List (Nat × ℚ)

/-- Python's `d.get(key, default)` on a `Delays` dictionary. -/
def delaysGet (d : Delays) (key : Nat) (dflt : ℚ) : ℚ :=
  match d.find? (fun p => p.1 == key) with
  | some p => p.2
  | none => dflt

/-- The default button table built in `__init__` when `button_ids` is not a
dict (source lines 71-80). -/
def defaultButtonIds : ButtonTable :=
  [("button_left", 1),
   ("button_middle", 2),
   ("button_right", 3),
   ("scroll_up", 4),
   ("scroll_down", 5),
   ("scroll_left", 6),
   ("scroll_right", 7)]

/-- A bounds record such as `relative_constraints` / `absolute_constraints`:
a dict with keys `min_x`, `max_x`, `min_y`, `max_y` (source lines 83-95). -/
structure Constraints where
  min_x : Int
  max_x : Int
  min_y : Int
  max_y : Int
  deriving DecidableEq, Repr

/-- The fields `__init__` stores on the object, besides the opaque display
connection handle (which is held but never reassigned). -/
structure XMouse_Remote where
  button_ids : ButtonTable
  relative_constraints : Constraints
  absolute_constraints : Constraints
  deriving DecidableEq, Repr

/-- The dynamic type of the `button_ids` constructor argument: an actual
`dict`, the default `None`, or any other non-dict value (`type(x) is not dict`
is what the source tests on line 71). -/
inductive ButtonIdsArg
  | dict (table : ButtonTable)
  | noneArg
  | otherNonDict (desc : String)
  deriving DecidableEq, Repr

/-- Whether `type(arg) is dict` holds for the constructor argument. -/
def ButtonIdsArg.isDict : ButtonIdsArg → Bool
  | .dict _ => true
  | .noneArg => false
  | .otherNonDict _ => false

/-- `XMouse_Remote.__init__` (source lines 45-95).  The display connection is
abstracted to the screen dimensions it supplies (`width_in_pixels`,
`height_in_pixels`), which are only used to build `absolute_constraints`. -/
def XMouse_Remote.init (width_in_pixels height_in_pixels : Int)
    (button_ids : ButtonIdsArg) : XMouse_Remote :=
  { button_ids :=
      match button_ids with
      | .dict table => table
      | _ => defaultButtonIds
    relative_constraints :=
      { min_x := -25, max_x := 25, min_y := -25, max_y := 25 }
    absolute_constraints :=
      { min_x := 0, max_x := width_in_pixels,
        min_y := 0, max_y := height_in_pixels } }

/-- A synthetic input event as passed to `Xlib.ext.xtest.fake_input`. -/
inductive Event
  | buttonPress (detail : Nat)
  | buttonRelease (detail : Nat)
  | motionNotify (x y : Int)
  deriving DecidableEq, Repr

/-- A Python exception escaping an operation. -/
inductive PyError
  | nameError (var : String)
  deriving DecidableEq, Repr

/-- The object together with the observable world: the live pointer location
on the server, the synthetic events the server received (in order), and the
sleeps performed. -/
structure Machine where
  self : XMouse_Remote
  serverLoc : Int × Int
  trace : List Event
  sleeps : List ℚ
  deriving DecidableEq, Repr

/-- Display-server semantics absent external interference: a motion event
teleports the pointer exactly to the requested coordinates; button events do
not move it. -/
def serverApply (loc : Int × Int) : Event → Int × Int
  | .motionNotify x y => (x, y)
  | _ => loc

/-- `fake_input(self.display, ...)`: the server records the event and applies
its effect on the pointer. -/
def fake_input (m : Machine) (e : Event) : Machine :=
  { m with trace := m.trace ++ [e], serverLoc := serverApply m.serverLoc e }

/-- `time.sleep(secs)`. -/
def sleep (m : Machine) (secs : ℚ) : Machine :=
  { m with sleeps := m.sleeps ++ [secs] }

/-- The `location` property (source lines 97-107): queries the root window's
pointer position from the server.  No caching, no event injected. -/
def location (m : Machine) : Int × Int :=
  m.serverLoc

/-- The `_target_id` computation shared by `button_press` (lines 144-146) and
`button_release` (lines 167-169): `_target_id = detail`, then if a
`button_name` was given, `_target_id = self.button_ids.get(button_name, 1)`. -/
def resolveButton (table : ButtonTable) (detail : Nat)
    (button_name : Option String) : Nat :=
  match button_name with
  | some name => dictGet table name 1
  | none => detail

/-- `XMouse_Remote.button_press` (source lines 130-151). -/
def button_press (m : Machine) (detail : Nat) (button_name : Option String)
    (sync : Bool) : Machine :=
  let _target_id := resolveButton m.self.button_ids detail button_name
  fake_input m (Event.buttonPress _target_id)

/-- `XMouse_Remote.button_release` (source lines 153-174).  NOTE: the source
computes `_target_id` exactly as `button_press` does, but line 171 passes the
raw `detail` — not `_target_id` — to `fake_input`, so the resolved name is
ignored for the injected release event. -/
def button_release (m : Machine) (detail : Nat) (button_name : Option String)
    (sync : Bool) : Machine :=
  let _target_id := resolveButton m.self.button_ids detail button_name
  fake_input m (Event.buttonRelease detail)

/-- `XMouse_Remote.button_click` (source lines 109-128):
`for _ in range(times): press; optional sleep; release`. -/
def button_click (m : Machine) (detail : Nat) (button_name : Option String)
    (times : Nat) (sync : Bool) (delays : Delays) : Machine :=
  match times with
  | 0 => m
  | Nat.succ k =>
      let m := button_press m detail button_name sync
      let m := if 0 < delaysGet delays 0 0 then sleep m (delaysGet delays 0 0) else m
      let m := button_release m detail button_name sync
      button_click m detail button_name k sync delays

/-- `XMouse_Remote.move_absolute` (source lines 231-250): inject the motion
event, then `return self.location`. -/
def move_absolute (m : Machine) (x y : Int) (sync : Bool) :
    Machine × (Int × Int) :=
  let m := fake_input m (Event.motionNotify x y)
  (m, location m)

/-- `XMouse_Remote.move_relative` (source lines 252-272): read
`self.location`, add each nonzero offset to the corresponding component, then
delegate to `move_absolute`. -/
def move_relative (m : Machine) (x y : Int) (sync : Bool) :
    Machine × (Int × Int) :=
  let _new_location := location m
  let _new_location :=
    if x ≠ 0 then (_new_location.1 + x, _new_location.2) else _new_location
  let _new_location :=
    if y ≠ 0 then (_new_location.1, _new_location.2 + y) else _new_location
  move_absolute m _new_location.1 _new_location.2 sync

/-- The float literal `0.01` (seconds) as the rational 1/100, written as an
already-reduced fraction so that the kernel can evaluate comparisons on it. -/
def ratHundredth : ℚ := ⟨1, 100, by norm_num, Nat.coprime_one_left 100⟩

/-- Default `delays` of `button_click`: `{0: 0.01}`. -/
def clickDelays : Delays := [(0, ratHundredth)]

/-- Default `delays` of `drag_absolute` / `drag_relative`: `{0: 0.01, 1: 0.01}`. -/
def dragDelays : Delays := [(0, ratHundredth), (1, ratHundredth)]

/-- `XMouse_Remote.drag_absolute` (source lines 176-202): press, optional
sleep, `move_absolute`, optional sleep, then line 200 evaluates
`self.button_release(detail = _target_id, sync = sync)`.  `_target_id` is a
local variable never assigned in `drag_absolute`'s scope (it is local to
`button_press` / `button_release` and there is no module-level binding), so
CPython raises `NameError` at that line: no release event is injected and
`self.location` is never returned. -/
def drag_absolute (m : Machine) (x y : Int) (detail : Nat)
    (button_name : Option String) (sync : Bool) (delays : Delays) :
    Machine × Except PyError (Int × Int) :=
  let m := button_press m detail button_name sync
  let m := if 0 < delaysGet delays 0 0 then sleep m (delaysGet delays 0 0) else m
  let (m, _) := move_absolute m x y sync
  let m := if 0 < delaysGet delays 1 0 then sleep m (delaysGet delays 1 0) else m
  (m, Except.error (PyError.nameError "_target_id"))

/-- `XMouse_Remote.drag_relative` (source lines 204-229): press, optional
sleep, `move_relative`, optional sleep, release (passing `detail` and
`button_name` through), `return self.location`. -/
def drag_relative (m : Machine) (x y : Int) (detail : Nat)
    (button_name : Option String) (sync : Bool) (delays : Delays) :
    Machine × Except PyError (Int × Int) :=
  let m := button_press m detail button_name sync
  let m := if 0 < delaysGet delays 0 0 then sleep m (delaysGet delays 0 0) else m
  let (m, _) := move_relative m x y sync
  let m := if 0 < delaysGet delays 1 0 then sleep m (delaysGet delays 1 0) else m
  let m := button_release m detail button_name sync
  (m, Except.ok (location m))

/-- `XMouse_Remote.scroll` (source lines 274-293): positive `y` clicks the
`scroll_up` button `y` times, negative `y` clicks `scroll_down` `abs(y)`
times; positive `x` clicks `scroll_left` `x` times, negative `x` clicks
`scroll_right` `abs(x)` times.  Each click uses `button_click` with its
default `times`-independent arguments. -/
def scroll (m : Machine) (x y : Int) : Machine :=
  let m :=
    if 0 < y then
      button_click m (dictGet m.self.button_ids "scroll_up" 4) none y.toNat true clickDelays
    else if y < 0 then
      button_click m (dictGet m.self.button_ids "scroll_down" 5) none y.natAbs true clickDelays
    else m
  if 0 < x then
    button_click m (dictGet m.self.button_ids "scroll_left" 6) none x.toNat true clickDelays
  else if x < 0 then
    button_click m (dictGet m.self.button_ids "scroll_right" 7) none x.natAbs true clickDelays
  else m

/-- A concrete session for witnesses and counterexamples: default button
table, a 1920×1080 screen, pointer at the origin, empty history. -/
def m0 : Machine :=
  { self := XMouse_Remote.init 1920 1080 ButtonIdsArg.noneArg
    serverLoc := (0, 0)
    trace := []
    sleeps := [] }

/-! ### Spec-side descriptions of observable event sequences -/

/-- The event sequence the spec describes for `n` clicks: `n` press/release
pairs in strict alternation, pressing button `p` and releasing button `r`
each time. -/
def clickPairs (p r : Nat) : Nat → List Event
  | 0 => []
  | Nat.succ n => Event.buttonPress p :: Event.buttonRelease r :: clickPairs p r n

/-- Number of press events in a trace. -/
def countPress : List Event → Nat
  | [] => 0
  | Event.buttonPress _ :: rest => countPress rest + 1
  | _ :: rest => countPress rest

/-- Number of release events in a trace. -/
def countRelease : List Event → Nat
  | [] => 0
  | Event.buttonRelease _ :: rest => countRelease rest + 1
  | _ :: rest => countRelease rest

/-- Number of press events with detail `d` in a trace — the spec's count of
"clicks on" button `d` (every press in a click is followed by its release). -/
def clicksOn (d : Nat) : List Event → Nat
  | [] => 0
  | Event.buttonPress e :: rest => (if e = d then 1 else 0) + clicksOn d rest
  | _ :: rest => clicksOn d rest

/-- Whether an event is a button press. -/
def isPress : Event → Bool
  | Event.buttonPress _ => true
  | _ => false

/-- No two press events are adjacent anywhere in the trace. -/
def noAdjacentPresses : List Event → Bool
  | [] => true
  | [_] => true
  | a :: b :: rest => (!(isPress a && isPress b)) && noAdjacentPresses (b :: rest)

/-- A point lies within a bounds record. -/
def inBounds (c : Constraints) (p : Int × Int) : Prop :=
  c.min_x ≤ p.1 ∧ p.1 ≤ c.max_x ∧ c.min_y ≤ p.2 ∧ p.2 ≤ c.max_y

instance (c : Constraints) (p : Int × Int) : Decidable (inBounds c p) := by
  unfold inBounds; infer_instance

/-- The same session with both bounds records replaced — used to state that no
operation's observable behaviour depends on those records. -/
def withConstraints (m : Machine) (rel absc : Constraints) : Machine :=
  { m with self :=
    { m.self with relative_constraints := rel, absolute_constraints := absc } }

/-- One call of the exposed call surface, with its arguments. -/
inductive Op
  | opLocation
  | opButtonPress (detail : Nat) (button_name : Option String) (sync : Bool)
  | opButtonRelease (detail : Nat) (button_name : Option String) (sync : Bool)
  | opButtonClick (detail : Nat) (button_name : Option String) (times : Nat)
      (sync : Bool) (delays : Delays)
  | opMoveAbsolute (x y : Int) (sync : Bool)
  | opMoveRelative (x y : Int) (sync : Bool)
  | opDragAbsolute (x y : Int) (detail : Nat) (button_name : Option String)
      (sync : Bool) (delays : Delays)
  | opDragRelative (x y : Int) (detail : Nat) (button_name : Option String)
      (sync : Bool) (delays : Delays)
  | opScroll (x y : Int)

/-- Run one operation, keeping the resulting session/world and discarding the
returned value. -/
def applyOp (m : Machine) : Op → Machine
  | Op.opLocation => m
  | Op.opButtonPress d bn s => button_press m d bn s
  | Op.opButtonRelease d bn s => button_release m d bn s
  | Op.opButtonClick d bn t s del => button_click m d bn t s del
  | Op.opMoveAbsolute x y s => (move_absolute m x y s).1
  | Op.opMoveRelative x y s => (move_relative m x y s).1
  | Op.opDragAbsolute x y d bn s del => (drag_absolute m x y d bn s del).1
  | Op.opDragRelative x y d bn s del => (drag_relative m x y d bn s del).1
  | Op.opScroll x y => scroll m x y

/-- Run a sequence of operations in order. -/
def applyOps (m : Machine) (ops : List Op) : Machine :=
  ops.foldl applyOp m

/-! ### Helper lemmas -/

theorem resolveButton_none (t : ButtonTable) (d : Nat) :
    resolveButton t d none = d := rfl

theorem dictGet_default_scroll_up : dictGet defaultButtonIds "scroll_up" 4 = 4 := by
  decide

theorem dictGet_default_scroll_down : dictGet defaultButtonIds "scroll_down" 5 = 5 := by
  decide

theorem dictGet_default_scroll_left : dictGet defaultButtonIds "scroll_left" 6 = 6 := by
  decide

theorem dictGet_default_scroll_right : dictGet defaultButtonIds "scroll_right" 7 = 7 := by
  decide

theorem button_click_self (d : Nat) (bn : Option String) (s : Bool) (del : Delays) :
    ∀ (n : Nat) (m : Machine), (button_click m d bn n s del).self = m.self := by
  intro n
  induction n with
  | zero => intro m; rfl
  | succ k ih =>
      intro m
      simp only [button_click]
      rw [ih]
      split <;> rfl

theorem button_click_trace (d : Nat) (bn : Option String) (s : Bool) (del : Delays) :
    ∀ (n : Nat) (m : Machine),
      (button_click m d bn n s del).trace
        = m.trace ++ clickPairs (resolveButton m.self.button_ids d bn) d n := by
  intro n
  induction n with
  | zero => intro m; simp [button_click, clickPairs]
  | succ k ih =>
      intro m
      simp only [button_click]
      rw [ih]
      split <;>
        simp [button_press, button_release, fake_input, sleep, serverApply, clickPairs]

theorem clickPairs_countPress (p r : Nat) :
    ∀ n, countPress (clickPairs p r n) = n := by
  intro n
  induction n with
  | zero => rfl
  | succ k ih => simp [clickPairs, countPress, ih]

theorem clickPairs_countRelease (p r : Nat) :
    ∀ n, countRelease (clickPairs p r n) = n := by
  intro n
  induction n with
  | zero => rfl
  | succ k ih => simp [clickPairs, countRelease, ih]

theorem clickPairs_noAdjacent (p r : Nat) :
    ∀ n, noAdjacentPresses (clickPairs p r n) = true
      ∧ noAdjacentPresses (Event.buttonRelease r :: clickPairs p r n) = true := by
  intro n
  induction n with
  | zero => exact ⟨rfl, rfl⟩
  | succ k ih =>
      obtain ⟨h1, h2⟩ := ih
      constructor
      · simp [clickPairs, noAdjacentPresses, isPress, h2]
      · simp [clickPairs, noAdjacentPresses, isPress, h2]

theorem drag_absolute_self (m : Machine) (x y : Int) (d : Nat) (bn : Option String)
    (s : Bool) (del : Delays) :
    (drag_absolute m x y d bn s del).1.self = m.self := by
  by_cases h0 : 0 < delaysGet del 0 0 <;> by_cases h1 : 0 < delaysGet del 1 0 <;>
    simp [drag_absolute, h0, h1, button_press, fake_input, sleep, move_absolute,
      location, serverApply]

theorem drag_relative_self (m : Machine) (x y : Int) (d : Nat) (bn : Option String)
    (s : Bool) (del : Delays) :
    (drag_relative m x y d bn s del).1.self = m.self := by
  by_cases h0 : 0 < delaysGet del 0 0 <;> by_cases h1 : 0 < delaysGet del 1 0 <;>
    simp [drag_relative, h0, h1, button_press, button_release, fake_input, sleep,
      move_relative, move_absolute, location, serverApply]

theorem scroll_self (m : Machine) (x y : Int) : (scroll m x y).self = m.self := by
  unfold scroll
  by_cases hy : 0 < y <;> by_cases hy' : y < 0 <;>
    by_cases hx : 0 < x <;> by_cases hx' : x < 0 <;>
      simp [hy, hy', hx, hx', button_click_self]

theorem applyOp_self (m : Machine) (op : Op) : (applyOp m op).self = m.self := by
  cases op <;>
    simp [applyOp, button_press, button_release, fake_input, button_click_self,
      move_absolute, move_relative, location, serverApply, drag_absolute_self,
      drag_relative_self, scroll_self]

/-! ### Claims -/

/-- C1 (code_bug exhibit): the claim says `drag_absolute` performs exactly
press(resolved id), move-absolute(x, y), release(same resolved id).  The code
instead raises `NameError` for the never-assigned local `_target_id` on the
release line: running `drag_absolute(x = 10, y = 20, detail = 1)` on a
default-constructed session injects only the press and the motion event — no
release — and the call errors instead of returning the location. -/
theorem C1_drag_absolute_release_never_happens :
    (drag_absolute m0 10 20 1 none true dragDelays).2
        = Except.error (PyError.nameError "_target_id")
    ∧ (drag_absolute m0 10 20 1 none true dragDelays).1.trace
        = [Event.buttonPress 1, Event.motionNotify 10 20]
    ∧ countRelease (drag_absolute m0 10 20 1 none true dragDelays).1.trace = 0 :=
  ⟨rfl, rfl, rfl⟩

/-- C2 (counterexample): the claim says `scroll(dx = 0, dy = 5)` issues
exactly 5 clicks on the "scroll_down" button (ID 5 in the default table).
The code clicks the "scroll_up" button (ID 4) five times for positive `y`
and issues zero clicks on ID 5. -/
theorem C2_counterexample :
    dictGet m0.self.button_ids "scroll_down" 1 = 5
    ∧ ¬ clicksOn 5 (scroll m0 0 5).trace = 5
    ∧ clicksOn 5 (scroll m0 0 5).trace = 0
    ∧ dictGet m0.self.button_ids "scroll_up" 1 = 4
    ∧ clicksOn 4 (scroll m0 0 5).trace = 5 := by
  decide

/-- C2 (amended): `scroll` translates each axis delta into repeated clicks
whose count equals the absolute value of the delta and whose button is
selected by the sign — positive `dy` clicks "scroll_up" (ID 4), negative `dy`
clicks "scroll_down" (ID 5), positive `dx` clicks "scroll_left" (ID 6),
negative `dx` clicks "scroll_right" (ID 7); a zero delta on an axis issues no
clicks on that axis.  In particular `scroll(0, 5)` issues exactly 5 clicks on
"scroll_up" and none on any horizontal button, and `scroll(-3, 0)` issues
exactly 3 clicks on "scroll_right". -/
theorem C2_scroll_amended (m : Machine) (x y : Int)
    (h : m.self.button_ids = defaultButtonIds) :
    (scroll m x y).trace
      = m.trace
        ++ (if 0 < y then clickPairs 4 4 y.toNat
            else if y < 0 then clickPairs 5 5 y.natAbs else [])
        ++ (if 0 < x then clickPairs 6 6 x.toNat
            else if x < 0 then clickPairs 7 7 x.natAbs else []) := by
  unfold scroll
  by_cases hy : 0 < y <;> by_cases hy' : y < 0 <;>
    by_cases hx : 0 < x <;> by_cases hx' : x < 0 <;>
      simp [hy, hy', hx, hx', button_click_trace, button_click_self,
        resolveButton_none, h, dictGet_default_scroll_up,
        dictGet_default_scroll_down, dictGet_default_scroll_left,
        dictGet_default_scroll_right, List.append_assoc]

/-- C2 (witness): the amended claim evaluated at the two example calls of the
claim, on a default-constructed session. -/
theorem C2_amended_witness :
    m0.self.button_ids = defaultButtonIds
    ∧ (scroll m0 0 5).trace = clickPairs 4 4 5
    ∧ clicksOn 4 (scroll m0 0 5).trace = 5
    ∧ clicksOn 6 (scroll m0 0 5).trace = 0
    ∧ clicksOn 7 (scroll m0 0 5).trace = 0
    ∧ (scroll m0 (-3) 0).trace = clickPairs 7 7 3 := by
  refine ⟨rfl, ?_, by decide, by decide, by decide, ?_⟩
  · rw [C2_scroll_amended m0 0 5 rfl]; decide
  · rw [C2_scroll_amended m0 (-3) 0 rfl]; decide

/-- C3 (code_bug exhibit): the claim says every button-accepting operation
sends the table's mapped value when a known symbolic name is given.  For
`button_release(detail = 1, button_name = "button_right")` the default table
maps "button_right" to 3, yet the injected release event carries the raw
`detail` 1 (source line 171 passes `detail`, not the resolved `_target_id`).
The symmetric `button_press` does send the resolved ID 3. -/
theorem C3_button_release_ignores_table :
    dictGet m0.self.button_ids "button_right" 1 = 3
    ∧ (button_release m0 1 (some "button_right") true).trace
        = [Event.buttonRelease 1]
    ∧ (button_press m0 1 (some "button_right") true).trace
        = [Event.buttonPress 3] := by
  decide

/-- C4: for every button selector and every `times = N`, `button_click`
appends to the observed event stream exactly N press/release pairs in strict
alternation — the trace of new events is literally
`clickPairs p detail N = [press p, release detail, press p, release detail, …]`
(`p` the resolved press ID), which contains N presses, N releases, and no two
adjacent presses; each pair completes before the next starts. -/
theorem C4_button_click_alternation (m : Machine) (detail : Nat)
    (button_name : Option String) (times : Nat) (sync : Bool) (delays : Delays) :
    (button_click m detail button_name times sync delays).trace
      = m.trace
        ++ clickPairs (resolveButton m.self.button_ids detail button_name) detail times
    ∧ countPress
        (clickPairs (resolveButton m.self.button_ids detail button_name) detail times)
        = times
    ∧ countRelease
        (clickPairs (resolveButton m.self.button_ids detail button_name) detail times)
        = times
    ∧ noAdjacentPresses
        (clickPairs (resolveButton m.self.button_ids detail button_name) detail times)
        = true :=
  ⟨button_click_trace detail button_name sync delays times m,
   clickPairs_countPress _ detail times,
   clickPairs_countRelease _ detail times,
   (clickPairs_noAdjacent _ detail times).1⟩

/-- C5: constructing with any non-dict `button_ids` argument yields the same
button table as constructing with `None`: the fixed default of 7 entries. -/
theorem C5_invalid_table_defaults (w h : Int) (arg : ButtonIdsArg)
    (harg : arg.isDict = false) :
    (XMouse_Remote.init w h arg).button_ids
        = (XMouse_Remote.init w h ButtonIdsArg.noneArg).button_ids
    ∧ (XMouse_Remote.init w h arg).button_ids
        = [("button_left", 1), ("button_middle", 2), ("button_right", 3),
           ("scroll_up", 4), ("scroll_down", 5), ("scroll_left", 6),
           ("scroll_right", 7)] := by
  cases arg with
  | dict t => simp [ButtonIdsArg.isDict] at harg
  | noneArg => exact ⟨rfl, rfl⟩
  | otherNonDict d => exact ⟨rfl, rfl⟩

/-- C5 (witness): a concrete non-dict argument (a string) yields the default
table, identical to constructing with `None`. -/
theorem C5_witness :
    (ButtonIdsArg.otherNonDict "not a mapping").isDict = false
    ∧ (XMouse_Remote.init 1920 1080 (ButtonIdsArg.otherNonDict "not a mapping")).button_ids
        = (XMouse_Remote.init 1920 1080 ButtonIdsArg.noneArg).button_ids :=
  ⟨rfl, (C5_invalid_table_defaults 1920 1080 (ButtonIdsArg.otherNonDict "not a mapping") rfl).1⟩

/-- C6: `move_relative(dx, dy)` reads the current location L, adds the
offsets, and delegates to `move_absolute` with the absolute target
L + (dx, dy); absent external interference (the model's server semantics) and
with the target in bounds, it returns L + (dx, dy). -/
theorem C6_move_relative_delegates (m : Machine) (dx dy : Int) (sync : Bool)
    (h : inBounds m.self.absolute_constraints
          (m.serverLoc.1 + dx, m.serverLoc.2 + dy)) :
    move_relative m dx dy sync
        = move_absolute m (m.serverLoc.1 + dx) (m.serverLoc.2 + dy) sync
    ∧ (move_relative m dx dy sync).2 = (m.serverLoc.1 + dx, m.serverLoc.2 + dy) := by
  have heq : move_relative m dx dy sync
      = move_absolute m (m.serverLoc.1 + dx) (m.serverLoc.2 + dy) sync := by
    unfold move_relative location
    by_cases hx : dx = 0 <;> by_cases hy : dy = 0 <;> simp [hx, hy]
  exact ⟨heq, by rw [heq]; rfl⟩

/-- C6 (witness): from the origin of the default session, a (5, 7) relative
move is in bounds and returns (5, 7). -/
theorem C6_witness :
    inBounds m0.self.absolute_constraints (m0.serverLoc.1 + 5, m0.serverLoc.2 + 7)
    ∧ (move_relative m0 5 7 true).2 = (m0.serverLoc.1 + 5, m0.serverLoc.2 + 7) :=
  ⟨by decide, (C6_move_relative_delegates m0 5 7 true (by decide)).2⟩

/-- C7: `move_absolute(x, y)` injects one motion event carrying exactly the
given coordinates and returns the location queried from the server after the
move; for (x, y) within the screen bounds, absent external interference, that
location — i.e. an immediately following `location` query — is (x, y). -/
theorem C7_move_absolute_roundtrip (m : Machine) (x y : Int) (sync : Bool)
    (h : inBounds m.self.absolute_constraints (x, y)) :
    (move_absolute m x y sync).1.trace = m.trace ++ [Event.motionNotify x y]
    ∧ (move_absolute m x y sync).2 = location (move_absolute m x y sync).1
    ∧ location (move_absolute m x y sync).1 = (x, y) :=
  ⟨rfl, rfl, rfl⟩

/-- C7 (witness): moving the default session to (100, 200) — in bounds on the
1920×1080 screen — lands the queried location at (100, 200). -/
theorem C7_witness :
    inBounds m0.self.absolute_constraints (100, 200)
    ∧ location (move_absolute m0 100 200 true).1 = (100, 200) :=
  ⟨by decide, (C7_move_absolute_roundtrip m0 100 200 true (by decide)).2.2⟩

/-- C8: the bounds records are advisory only — for every pair of bounds
records (hence also when the target lies outside them), every move/drag
operation injects its motion event with exactly the requested (or computed)
coordinates: the observed events never depend on, clamp to, or get rejected
against `relative_constraints` / `absolute_constraints`. -/
theorem C8_bounds_advisory (m : Machine) (rel absc : Constraints)
    (x y dx dy : Int) (sync : Bool) (detail : Nat) (button_name : Option String)
    (delays : Delays) :
    (move_absolute (withConstraints m rel absc) x y sync).1.trace
        = m.trace ++ [Event.motionNotify x y]
    ∧ (drag_absolute (withConstraints m rel absc) x y detail button_name sync delays).1.trace
        = m.trace
          ++ [Event.buttonPress (resolveButton m.self.button_ids detail button_name),
              Event.motionNotify x y]
    ∧ (move_relative (withConstraints m rel absc) dx dy sync).1.trace
        = m.trace ++ [Event.motionNotify (m.serverLoc.1 + dx) (m.serverLoc.2 + dy)]
    ∧ (drag_relative (withConstraints m rel absc) dx dy detail button_name sync delays).1.trace
        = m.trace
          ++ [Event.buttonPress (resolveButton m.self.button_ids detail button_name),
              Event.motionNotify (m.serverLoc.1 + dx) (m.serverLoc.2 + dy),
              Event.buttonRelease detail] := by
  refine ⟨rfl, ?_, ?_, ?_⟩
  · by_cases h0 : 0 < delaysGet delays 0 0 <;>
      by_cases h1 : 0 < delaysGet delays 1 0 <;>
        simp [drag_absolute, h0, h1, button_press, fake_input, sleep,
          move_absolute, location, serverApply, withConstraints]
  · by_cases hdx : dx = 0 <;> by_cases hdy : dy = 0 <;>
      simp [move_relative, move_absolute, location, fake_input, serverApply,
        withConstraints, hdx, hdy]
  · by_cases h0 : 0 < delaysGet delays 0 0 <;>
      by_cases h1 : 0 < delaysGet delays 1 0 <;>
        by_cases hdx : dx = 0 <;> by_cases hdy : dy = 0 <;>
          simp [drag_relative, h0, h1, hdx, hdy, button_press, button_release,
            fake_input, sleep, move_relative, move_absolute, location,
            serverApply, withConstraints]

/-- C9: the object's own state — the button-name table and the two bounds
records (the connection handle is likewise held but never reassigned) — is
exactly as constructed after any sequence of operations of the exposed call
surface. -/
theorem C9_state_immutable (m : Machine) (ops : List Op) :
    (applyOps m ops).self = m.self
    ∧ (applyOps m ops).self.button_ids = m.self.button_ids
    ∧ (applyOps m ops).self.relative_constraints = m.self.relative_constraints
    ∧ (applyOps m ops).self.absolute_constraints = m.self.absolute_constraints := by
  have h : ∀ (ops : List Op) (m : Machine), (applyOps m ops).self = m.self := by
    intro ops
    induction ops with
    | nil => intro m; rfl
    | cons op rest ih =>
        intro m
        have hstep : applyOps m (op :: rest) = applyOps (applyOp m op) rest := rfl
        rw [hstep, ih, applyOp_self]
  exact ⟨h ops m, by rw [h ops m], by rw [h ops m], by rw [h ops m]⟩

/-- C10: `move_relative(0, 0)` is not a no-op — it still issues one motion
event targeting the current location and returns the post-move queried
location (equal to where the pointer already was). -/
theorem C10_move_relative_zero_still_moves (m : Machine) (sync : Bool) :
    (move_relative m 0 0 sync).1.trace
        = m.trace ++ [Event.motionNotify m.serverLoc.1 m.serverLoc.2]
    ∧ (move_relative m 0 0 sync).2 = m.serverLoc := by
  constructor <;> simp [move_relative, move_absolute, location, fake_input, serverApply]

end XMouseRemote
